import Mathlib

/-!
Shallow embedding of the runtime version resolution of the
hatch-vcs-footgun-example repository, together with its pyproject-patching
script, and theorems checking the specification's claims against it.

The repository source available here contains the test suite
(tests/test_version.py, tests/conftest.py, tests/setup_venv.py), the
package initializer (hatch_vcs_footgun_example/__init__.py) and the
publishing script (.github/workflows/prepare_pypi_readme.py).  The module
implementing the resolver itself (hatch_vcs_footgun_example/version.py and
the main entry point) is not among the available sources, so the resolver
is modelled from the specification, held consistent with the behavior the
test suite asserts.  The pyproject-patching script is embedded directly
from its source.
-/

/-- A semantic version tag X.Y.Z.  A VCS tag vX.Y.Z carries the version
X.Y.Z (the tool strips the leading v). -/
structure VersionTag where
  major : Nat
  minor : Nat
  patch : Nat
  deriving DecidableEq, Repr

/-- Render a version tag as the dotted string X.Y.Z. -/
def VersionTag.toVersionString (v : VersionTag) : String :=
  toString v.major ++ "." ++ toString v.minor ++ "." ++ toString v.patch

/-- State of the VCS repository as seen by the external versioning tool:
the latest version tag reachable from the current commit (if any), the
number of commits since that tag, and the abbreviated commit hash of the
current head. -/
structure VcsState where
  lastTag : Option VersionTag
  distance : Nat
  node : String
  deriving DecidableEq, Repr

/-- Modelled from the spec: the external VCS-versioning tool computes the
version from the current VCS state.  At a tag with no further commits the
version is exactly the tag.  Past a tag it is a distance-suffixed
development version derived from the last known tag (next patch number,
a dev marker with the commit distance, and the commit hash, as in
100.2.4.dev1+gabcdef).  With no tag reachable at all it falls back to a
default base version with a development suffix, 0.1.devN+ghash.  The spec
treats the exact format as an opaque external contract; this definition
follows the examples the spec and the tests pin down. -/
def computeVcsVersion (s : VcsState) : String :=
  match s.lastTag with
  | some v =>
      if s.distance = 0 then
        v.toVersionString
      else
        VersionTag.toVersionString ⟨v.major, v.minor, v.patch + 1⟩ ++
          (".dev" ++ (toString s.distance ++ ("+g" ++ s.node)))
  | none => "0.1.dev" ++ (toString s.distance ++ ("+g" ++ s.node))

/-- Errors surfacing from version resolution.  The constructors name the
error classes of the spec's taxonomy: the package was never installed;
the VCS metadata tool could not detect a version; the versioning plugin is
absent; a metadata hook failed.  The wrapper constructor
versionResolutionError is named by the spec's contract line; the theorems
below settle whether the resolver ever produces it. -/
inductive Err where
  | packageNotFound
  | lookupError (msg : String)
  | unknownVersionSource (source : String)
  | configurationError (msg : String)
  | versionResolutionError (wrapped : Err)
  deriving DecidableEq, Repr

/-- Whether an error is the wrapper versionResolutionError. -/
def Err.isWrapped : Err → Bool
  | .versionResolutionError _ => true
  | _ => false

/-- Whether a resolution outcome failed with the wrapper error. -/
def errorIsWrapped : Except Err String → Bool
  | .error e => e.isWrapped
  | .ok _ => false

/-- The observable process state a resolution runs in: the recomputation
environment flag, the current working directory, the project root (the
directory containing the build manifest), the version string frozen into
package metadata at install time (none when never installed), whether the
VCS directory is present, whether the versioning plugin is installed,
whether the readme-assembly metadata hook is configured, and the current
VCS state. -/
structure World where
  runtimeFlag : Bool
  cwd : String
  projectRoot : String
  installedVersion : Option String
  vcsAvailable : Bool
  pluginInstalled : Bool
  readmeHook : Bool
  vcs : VcsState
  deriving DecidableEq, Repr

/-- Modelled from the spec: the packaging tool's metadata-evaluation entry
point (hatchling ProjectMetadata), an external collaborator.  It fails
with an unknown-version-source error when the versioning plugin is absent,
and with a lookup error when the VCS directory cannot be found.  A
configured readme-assembly hook resolves its fragment path against the
ambient working directory, so it fails when the evaluation runs with a
working directory other than the project root.  Otherwise it returns the
version computed from the current VCS state. -/
def evalMetadata (w : World) : Except Err String :=
  if w.pluginInstalled = false then
    Except.error (Err.unknownVersionSource "vcs")
  else if w.readmeHook && (w.cwd != w.projectRoot) then
    Except.error (Err.configurationError "Fragment file README.md not found")
  else if w.vcsAvailable = false then
    Except.error (Err.lookupError "setuptools-scm was unable to detect version")
  else
    Except.ok (computeVcsVersion w.vcs)

/-- Modelled from the spec: resolve_version.  If the recomputation flag is
unset, return the version frozen at install time, failing with a
PackageNotFoundError-equivalent when the package was never installed.  If
the flag is set, save the current working directory, change to the project
root, invoke the metadata evaluation there, and restore the original
working directory before returning or propagating (the finally-equivalent
guard).  Errors of the evaluation pass through untranslated, as required
by the spec's behavior item 3 (propagate without translation), its error
handling section (all failures surface verbatim), and the test suite,
which asserts the underlying tool's own messages. -/
def resolve_version (w : World) : Except Err String × World :=
  if w.runtimeFlag then
    let originalDir := w.cwd
    let atRoot : World := { w with cwd := w.projectRoot }
    let result := evalMetadata atRoot
    let restored : World := { atRoot with cwd := originalDir }
    (result, restored)
  else
    match w.installedVersion with
    | some v => (Except.ok v, w)
    | none => (Except.error Err.packageNotFound, w)

/-- Claim C1: when the recomputation flag is set, resolve_version runs the
metadata evaluation with the working directory set to the project root,
and the working directory observed after the call equals the one observed
before it, on success and on failure alike. -/
theorem resolve_version_restores_cwd (w : World) (h : w.runtimeFlag = true) :
    (resolve_version w).1 = evalMetadata { w with cwd := w.projectRoot } ∧
    ((resolve_version w).2).cwd = w.cwd := by
  simp [resolve_version, h]

/-- Witness for C1 at a concrete world whose working directory differs
from the project root. -/
theorem resolve_version_restores_cwd_witness :
    ((resolve_version
        { runtimeFlag := true, cwd := "/home/user/notebooks",
          projectRoot := "/home/user/project",
          installedVersion := some "100.2.3", vcsAvailable := true,
          pluginInstalled := true, readmeHook := false,
          vcs := ⟨some ⟨100, 2, 3⟩, 0, "abcdef0"⟩ }).2).cwd
      = "/home/user/notebooks" :=
  (resolve_version_restores_cwd
    { runtimeFlag := true, cwd := "/home/user/notebooks",
      projectRoot := "/home/user/project",
      installedVersion := some "100.2.3", vcsAvailable := true,
      pluginInstalled := true, readmeHook := false,
      vcs := ⟨some ⟨100, 2, 3⟩, 0, "abcdef0"⟩ } rfl).2

/-- Claim C2, counterexample: at a concrete world where recomputation is
requested and the VCS directory is missing, resolve_version fails with the
underlying tool's lookup error itself, not with a versionResolutionError
wrapping it. -/
theorem resolve_version_no_wrapper_counterexample :
    (resolve_version
        { runtimeFlag := true, cwd := "/home/user/project",
          projectRoot := "/home/user/project",
          installedVersion := some "100.2.3", vcsAvailable := false,
          pluginInstalled := true, readmeHook := false,
          vcs := ⟨some ⟨100, 2, 3⟩, 0, "abcdef0"⟩ }).1
      = Except.error (Err.lookupError "setuptools-scm was unable to detect version") ∧
    errorIsWrapped
      (resolve_version
        { runtimeFlag := true, cwd := "/home/user/project",
          projectRoot := "/home/user/project",
          installedVersion := some "100.2.3", vcsAvailable := false,
          pluginInstalled := true, readmeHook := false,
          vcs := ⟨some ⟨100, 2, 3⟩, 0, "abcdef0"⟩ }).1 = false :=
  ⟨rfl, rfl⟩

/-- Helper: none of the metadata evaluation's outcomes is the wrapper
error. -/
theorem evalMetadata_not_wrapped (w : World) :
    errorIsWrapped (evalMetadata w) = false := by
  unfold evalMetadata
  split
  · rfl
  · split
    · rfl
    · split
      · rfl
      · rfl

/-- Claim C2, amended: when recomputation is requested, resolve_version
propagates the underlying tool's error untranslated — its result is
exactly the metadata evaluation's result, and it never produces the
wrapper versionResolutionError. -/
theorem resolve_version_propagates_untranslated (w : World)
    (h : w.runtimeFlag = true) :
    (resolve_version w).1 = evalMetadata { w with cwd := w.projectRoot } ∧
    errorIsWrapped (resolve_version w).1 = false := by
  have h1 : (resolve_version w).1 = evalMetadata { w with cwd := w.projectRoot } := by
    simp [resolve_version, h]
  exact ⟨h1, h1 ▸ evalMetadata_not_wrapped { w with cwd := w.projectRoot }⟩

/-- Witness for the amended C2 at a concrete world with the VCS directory
missing. -/
theorem resolve_version_propagates_untranslated_witness :
    errorIsWrapped
      (resolve_version
        { runtimeFlag := true, cwd := "/tmp", projectRoot := "/home/user/project",
          installedVersion := none, vcsAvailable := false,
          pluginInstalled := true, readmeHook := false,
          vcs := ⟨none, 2, "abc1234"⟩ }).1 = false :=
  (resolve_version_propagates_untranslated
    { runtimeFlag := true, cwd := "/tmp", projectRoot := "/home/user/project",
      installedVersion := none, vcsAvailable := false,
      pluginInstalled := true, readmeHook := false,
      vcs := ⟨none, 2, "abc1234"⟩ } rfl).2

/-- Claim C4: with the readme-assembly hook configured (and the plugin and
VCS present), runtime recomputation started from an arbitrary working
directory succeeds with the version computed from the VCS state, and its
result equals the result of the same invocation started from the project
root: the outcome does not depend on the caller's working directory. -/
theorem recompute_cwd_independent (w : World) (c : String)
    (hflag : w.runtimeFlag = true) (hplug : w.pluginInstalled = true)
    (hgit : w.vcsAvailable = true) (_hhook : w.readmeHook = true) :
    (resolve_version { w with cwd := c }).1 = Except.ok (computeVcsVersion w.vcs) ∧
    (resolve_version { w with cwd := c }).1 =
      (resolve_version { w with cwd := w.projectRoot }).1 := by
  constructor
  · simp [resolve_version, evalMetadata, hflag, hplug, hgit]
  · simp [resolve_version, evalMetadata, hflag, hplug, hgit]

/-- Witness for C4: invoking from a subdirectory of a concrete project
gives the same successful result as invoking from the project root. -/
theorem recompute_cwd_independent_witness :
    (resolve_version
        { runtimeFlag := true, cwd := "/home/user/project/notebooks",
          projectRoot := "/home/user/project",
          installedVersion := some "100.2.3", vcsAvailable := true,
          pluginInstalled := true, readmeHook := true,
          vcs := ⟨some ⟨100, 2, 3⟩, 0, "abcdef0"⟩ }).1
      = Except.ok "100.2.3" :=
  (recompute_cwd_independent
    { runtimeFlag := true, cwd := "/home/user/project/notebooks",
      projectRoot := "/home/user/project",
      installedVersion := some "100.2.3", vcsAvailable := true,
      pluginInstalled := true, readmeHook := true,
      vcs := ⟨some ⟨100, 2, 3⟩, 0, "abcdef0"⟩ }
    "/home/user/project/notebooks" rfl rfl rfl rfl).1

/-- Claim C5: with the recomputation flag unset, resolve_version returns
the version frozen at install time, fails with the
PackageNotFoundError-equivalent exactly when the package was never
installed, and consults no VCS state: its result is unchanged under any
change of the VCS state, the plugin's presence, the VCS directory's
presence, or the hook configuration. -/
theorem frozen_mode_resolution (w : World) (h : w.runtimeFlag = false) :
    ((resolve_version w).1 = Except.error Err.packageNotFound ↔
        w.installedVersion = none) ∧
    (∀ v, w.installedVersion = some v → (resolve_version w).1 = Except.ok v) ∧
    (∀ s p a r, (resolve_version
        { w with vcs := s, pluginInstalled := p, vcsAvailable := a,
                 readmeHook := r }).1 = (resolve_version w).1) := by
  refine ⟨?_, ?_, ?_⟩
  · cases hv : w.installedVersion <;> simp [resolve_version, h, hv]
  · intro v hv
    simp [resolve_version, h, hv]
  · intro s p a r
    cases hv : w.installedVersion <;> simp [resolve_version, h, hv]

/-- Witness for C5 at a concrete installed world: the frozen version is
returned and the result ignores a changed VCS state. -/
theorem frozen_mode_resolution_witness :
    (resolve_version
        { runtimeFlag := false, cwd := "/home/user/project",
          projectRoot := "/home/user/project",
          installedVersion := some "100.2.3", vcsAvailable := true,
          pluginInstalled := true, readmeHook := false,
          vcs := ⟨some ⟨100, 2, 3⟩, 0, "abcdef0"⟩ }).1
      = Except.ok "100.2.3" :=
  (frozen_mode_resolution
    { runtimeFlag := false, cwd := "/home/user/project",
      projectRoot := "/home/user/project",
      installedVersion := some "100.2.3", vcsAvailable := true,
      pluginInstalled := true, readmeHook := false,
      vcs := ⟨some ⟨100, 2, 3⟩, 0, "abcdef0"⟩ } rfl).2.1 "100.2.3" rfl

/-- Claim C6: for a freshly tagged repository at tag vX.Y.Z with no
subsequent commits (so the frozen version is the one computed from that
state at install time), frozen-mode resolution and recomputed-mode
resolution return equal results, both exactly the string X.Y.Z. -/
theorem fresh_tag_frozen_eq_recomputed (w : World) (v : VersionTag) (node : String)
    (hinst : w.installedVersion = some v.toVersionString)
    (hvcs : w.vcs = ⟨some v, 0, node⟩)
    (hplug : w.pluginInstalled = true) (hgit : w.vcsAvailable = true) :
    (resolve_version { w with runtimeFlag := false }).1
        = Except.ok v.toVersionString ∧
    (resolve_version { w with runtimeFlag := true }).1
        = Except.ok v.toVersionString := by
  constructor
  · simp [resolve_version, hinst]
  · simp [resolve_version, evalMetadata, hplug, hgit, hvcs, computeVcsVersion]

/-- Witness for C6: at tag v100.2.3 with no further commits, both modes
yield the string 100.2.3. -/
theorem fresh_tag_frozen_eq_recomputed_witness :
    (resolve_version
        { runtimeFlag := false, cwd := "/home/user/project",
          projectRoot := "/home/user/project",
          installedVersion := some "100.2.3", vcsAvailable := true,
          pluginInstalled := true, readmeHook := false,
          vcs := ⟨some ⟨100, 2, 3⟩, 0, "abcdef0"⟩ }).1
      = Except.ok "100.2.3" :=
  (fresh_tag_frozen_eq_recomputed
    { runtimeFlag := false, cwd := "/home/user/project",
      projectRoot := "/home/user/project",
      installedVersion := some "100.2.3", vcsAvailable := true,
      pluginInstalled := true, readmeHook := false,
      vcs := ⟨some ⟨100, 2, 3⟩, 0, "abcdef0"⟩ }
    ⟨100, 2, 3⟩ "abcdef0" rfl rfl rfl rfl).1

/-- Claim C7: if the versioning plugin is removed after the package was
installed, frozen-mode resolution still returns the install-time version,
while recomputation fails with the unknown-version-source error; frozen
mode is unaffected by the plugin's absence. -/
theorem plugin_removed_behavior (w : World) (v : String)
    (hinst : w.installedVersion = some v)
    (hplug : w.pluginInstalled = false) :
    (resolve_version { w with runtimeFlag := false }).1 = Except.ok v ∧
    (resolve_version { w with runtimeFlag := true }).1
        = Except.error (Err.unknownVersionSource "vcs") := by
  constructor
  · simp [resolve_version, hinst]
  · simp [resolve_version, evalMetadata, hplug]

/-- Witness for C7 at a concrete installed world with the plugin
removed. -/
theorem plugin_removed_behavior_witness :
    (resolve_version
        { runtimeFlag := true, cwd := "/home/user/project",
          projectRoot := "/home/user/project",
          installedVersion := some "100.2.3", vcsAvailable := true,
          pluginInstalled := false, readmeHook := false,
          vcs := ⟨some ⟨100, 2, 3⟩, 0, "abcdef0"⟩ }).1
      = Except.error (Err.unknownVersionSource "vcs") :=
  (plugin_removed_behavior
    { runtimeFlag := true, cwd := "/home/user/project",
      projectRoot := "/home/user/project",
      installedVersion := some "100.2.3", vcsAvailable := true,
      pluginInstalled := false, readmeHook := false,
      vcs := ⟨some ⟨100, 2, 3⟩, 0, "abcdef0"⟩ } "100.2.3" rfl rfl).2

/-- Claim C8: when no VCS tags are reachable at all, runtime recomputation
does not fail: it returns a development fallback version beginning with
the prefix 0.1.dev. -/
theorem no_tags_dev_fallback (w : World)
    (hflag : w.runtimeFlag = true) (hplug : w.pluginInstalled = true)
    (hgit : w.vcsAvailable = true) (htags : w.vcs.lastTag = none) :
    ∃ rest, (resolve_version w).1 = Except.ok ("0.1.dev" ++ rest) := by
  refine ⟨toString w.vcs.distance ++ ("+g" ++ w.vcs.node), ?_⟩
  simp only [resolve_version, hflag, if_true]
  simp [evalMetadata, hplug, hgit, computeVcsVersion, htags]

/-- Witness for C8: with every tag deleted and three commits after, the
recomputed version is 0.1.dev3+gabc1234. -/
theorem no_tags_dev_fallback_witness :
    ∃ rest,
      (resolve_version
          { runtimeFlag := true, cwd := "/home/user/project",
            projectRoot := "/home/user/project",
            installedVersion := some "100.2.3", vcsAvailable := true,
            pluginInstalled := true, readmeHook := false,
            vcs := ⟨none, 3, "abc1234"⟩ }).1
        = Except.ok ("0.1.dev" ++ rest) :=
  no_tags_dev_fallback
    { runtimeFlag := true, cwd := "/home/user/project",
      projectRoot := "/home/user/project",
      installedVersion := some "100.2.3", vcsAvailable := true,
      pluginInstalled := true, readmeHook := false,
      vcs := ⟨none, 3, "abc1234"⟩ } rfl rfl rfl rfl

/-- Claim C3: after a commits-only pull (the last locally known tag is
still v100.2.3 at distance one, the newer upstream tag v100.3.0 was not
fetched), recomputed resolution yields the distance-suffixed development
version 100.2.4.dev1+gnode derived from the last local tag, which differs
from the new upstream tag string 100.3.0; frozen resolution still yields
the install-time version 100.2.3; and after the tags are fetched (the VCS
state sits at tag v100.3.0, distance zero), recomputation yields exactly
100.3.0. -/
theorem missing_tags_footgun (w : World) (node nodeFetched : String)
    (hflag : w.runtimeFlag = true) (hplug : w.pluginInstalled = true)
    (hgit : w.vcsAvailable = true)
    (hinst : w.installedVersion = some "100.2.3") :
    (resolve_version { w with vcs := ⟨some ⟨100, 2, 3⟩, 1, node⟩ }).1
        = Except.ok ("100.2.4.dev1+g" ++ node) ∧
    ("100.2.4.dev1+g" ++ node) ≠ "100.3.0" ∧
    (resolve_version
        { w with vcs := ⟨some ⟨100, 2, 3⟩, 1, node⟩, runtimeFlag := false }).1
        = Except.ok "100.2.3" ∧
    (resolve_version { w with vcs := ⟨some ⟨100, 3, 0⟩, 0, nodeFetched⟩ }).1
        = Except.ok "100.3.0" := by
  refine ⟨?_, ?_, ?_, ?_⟩
  · have h3 : (resolve_version { w with vcs := ⟨some ⟨100, 2, 3⟩, 1, node⟩ }).1
        = Except.ok (computeVcsVersion ⟨some ⟨100, 2, 3⟩, 1, node⟩) := by
      simp [resolve_version, evalMetadata, hflag, hplug, hgit]
    have h4 : computeVcsVersion ⟨some ⟨100, 2, 3⟩, 1, node⟩
        = "100.2.4" ++ (".dev" ++ (toString (1 : Nat) ++ ("+g" ++ node))) := rfl
    rw [h3, h4, ← String.append_assoc, ← String.append_assoc, ← String.append_assoc]
    rfl
  · intro hEq
    have h2 := congrArg String.length hEq
    rw [String.length_append] at h2
    have ha : "100.2.4.dev1+g".length = 14 := rfl
    have hb : "100.3.0".length = 7 := rfl
    omega
  · simp [resolve_version, hinst]
  · have h5 : (resolve_version
        { w with vcs := ⟨some ⟨100, 3, 0⟩, 0, nodeFetched⟩ }).1
        = Except.ok (computeVcsVersion ⟨some ⟨100, 3, 0⟩, 0, nodeFetched⟩) := by
      simp [resolve_version, evalMetadata, hflag, hplug, hgit]
    rw [h5]
    rfl

/-- Witness for C3 at a concrete world and commit hash. -/
theorem missing_tags_footgun_witness :
    (resolve_version
        { runtimeFlag := true, cwd := "/home/user/project",
          projectRoot := "/home/user/project",
          installedVersion := some "100.2.3", vcsAvailable := true,
          pluginInstalled := true, readmeHook := false,
          vcs := ⟨some ⟨100, 2, 3⟩, 1, "abcdef0"⟩ }).1
      = Except.ok ("100.2.4.dev1+g" ++ "abcdef0") ∧
    ("100.2.4.dev1+g" ++ "abcdef0") ≠ "100.3.0" :=
  have h := missing_tags_footgun
    { runtimeFlag := true, cwd := "/home/user/project",
      projectRoot := "/home/user/project",
      installedVersion := some "100.2.3", vcsAvailable := true,
      pluginInstalled := true, readmeHook := false,
      vcs := ⟨some ⟨100, 2, 3⟩, 1, "abcdef0"⟩ }
    "abcdef0" "fedcba9" rfl rfl rfl rfl
  ⟨h.1, h.2.1⟩

/-- The single-quote character, used in the program's stdout format. -/
def quoteStr : String := (Char.ofNat 39).toString

/-- Outcome of running the package as an executable module: exit code,
standard output and standard error. -/
structure ProcResult where
  exitCode : Nat
  stdout : String
  stderr : String
  deriving DecidableEq, Repr

/-- Modelled from the spec: the diagnostic text each failure class puts on
standard error, following the messages the test suite asserts. -/
def diagnostic : Err → String
  | .packageNotFound => "PackageNotFoundError: hatch-vcs-footgun-example"
  | .lookupError m => "LookupError: " ++ m
  | .unknownVersionSource s => "ValueError: Unknown version source: " ++ s
  | .configurationError m => "ConfigurationError: " ++ m
  | .versionResolutionError e => "VersionResolutionError: " ++ diagnostic e

/-- Modelled from the spec: running the package as an executable module
resolves the version and prints the result; every failure of the
resolution terminates the process with a non-zero exit code and the
diagnostic on standard error, with nothing recovered or retried. -/
def runMain (w : World) : ProcResult :=
  match (resolve_version w).1 with
  | .ok v => ⟨0, "My version is " ++ (quoteStr ++ (v ++ quoteStr)), ""⟩
  | .error e => ⟨1, "", diagnostic e⟩

/-- Helper: every diagnostic is a nonempty string. -/
theorem diagnostic_length_pos (e : Err) : 0 < (diagnostic e).length := by
  cases e with
  | packageNotFound => decide
  | lookupError m =>
      show 0 < ("LookupError: " ++ m).length
      rw [String.length_append]
      have h : "LookupError: ".length = 13 := rfl
      omega
  | unknownVersionSource s =>
      show 0 < ("ValueError: Unknown version source: " ++ s).length
      rw [String.length_append]
      have h : "ValueError: Unknown version source: ".length = 36 := rfl
      omega
  | configurationError m =>
      show 0 < ("ConfigurationError: " ++ m).length
      rw [String.length_append]
      have h : "ConfigurationError: ".length = 20 := rfl
      omega
  | versionResolutionError e2 =>
      show 0 < ("VersionResolutionError: " ++ diagnostic e2).length
      rw [String.length_append]
      have h : "VersionResolutionError: ".length = 24 := rfl
      omega

/-- Helper: no diagnostic is the empty string. -/
theorem diagnostic_ne_empty (e : Err) : diagnostic e ≠ "" := by
  intro h
  have h2 := congrArg String.length h
  have h3 := diagnostic_length_pos e
  rw [h2] at h3
  have h4 : ("" : String).length = 0 := rfl
  omega

/-- Claim C9: run as an executable module, on success the program prints
exactly the line My version is quote-version-quote to standard output with
exit code zero; on every resolution failure it terminates with a non-zero
exit code and a nonempty diagnostic on standard error; no failure is
recovered, so the exit code is zero exactly when resolution succeeded. -/
theorem main_output_contract :
    (∀ w v, (resolve_version w).1 = Except.ok v →
      runMain w = ⟨0, "My version is " ++ (quoteStr ++ (v ++ quoteStr)), ""⟩) ∧
    (∀ w e, (resolve_version w).1 = Except.error e →
      (runMain w).exitCode ≠ 0 ∧ (runMain w).stderr = diagnostic e ∧
        (runMain w).stderr ≠ "") ∧
    (∀ w, (runMain w).exitCode = 0 ↔ ((resolve_version w).1).isOk = true) := by
  refine ⟨?_, ?_, ?_⟩
  · intro w v h
    simp [runMain, h]
  · intro w e h
    exact ⟨by simp [runMain, h], by simp [runMain, h],
      by simp [runMain, h]; exact diagnostic_ne_empty e⟩
  · intro w
    cases hr : (resolve_version w).1 <;>
      simp [runMain, hr, Except.isOk, Except.toBool]

/-- Witness for C9 at a concrete installed world resolving in frozen
mode. -/
theorem main_output_contract_witness :
    runMain
      { runtimeFlag := false, cwd := "/home/user/project",
        projectRoot := "/home/user/project",
        installedVersion := some "100.2.3", vcsAvailable := true,
        pluginInstalled := true, readmeHook := false,
        vcs := ⟨some ⟨100, 2, 3⟩, 0, "abcdef0"⟩ }
      = ⟨0, "My version is " ++ (quoteStr ++ ("100.2.3" ++ quoteStr)), ""⟩ :=
  main_output_contract.1
    { runtimeFlag := false, cwd := "/home/user/project",
      projectRoot := "/home/user/project",
      installedVersion := some "100.2.3", vcsAvailable := true,
      pluginInstalled := true, readmeHook := false,
      vcs := ⟨some ⟨100, 2, 3⟩, 0, "abcdef0"⟩ } "100.2.3" rfl

/-- The pyproject.toml fields the publishing script reads and writes.
A field holding none stands for an absent key. -/
structure Pyproject where
  projectReadme : Option String
  projectDynamic : Option (List String)
  projectLicenseFile : Option String
  projectUrlsHomepage : Option String
  buildSystemRequires : Option (List String)
  deriving DecidableEq, Repr

/-- Embedding of .github/workflows/prepare_pypi_readme.py: delete the
readme key from the project table (a key-lookup error when it is absent,
as the del statement raises KeyError), append readme to project.dynamic
unless already present, set the license file and the homepage URL, and
append hatch-fancy-pypi-readme to build-system.requires unless already
present.  The surrounding file input and output and the raw footer text
appended after serialization carry no document logic and are not
modelled. -/
def prepare_pypi_readme (p : Pyproject) : Except String Pyproject :=
  match p.projectReadme with
  | none => Except.error "KeyError: readme"
  | some _ =>
      let dynamic := p.projectDynamic.getD []
      let dynamic1 :=
        if dynamic.contains "readme" then dynamic else dynamic ++ ["readme"]
      let requires := p.buildSystemRequires.getD []
      let requires1 :=
        if requires.contains "hatch-fancy-pypi-readme" then requires
        else requires ++ ["hatch-fancy-pypi-readme"]
      Except.ok
        { projectReadme := none
          projectDynamic := some dynamic1
          projectLicenseFile := some "LICENSE"
          projectUrlsHomepage :=
            some "https://github.com/maresb/hatch-vcs-footgun-example"
          buildSystemRequires := some requires1 }

/-- Claim C10, counterexample: on an input whose project.dynamic already
lists readme twice, the script leaves both occurrences, so readme does not
occur exactly once in the output. -/
theorem prepare_pypi_readme_duplicate_counterexample :
    prepare_pypi_readme
        ⟨some "README.md", some ["readme", "readme"], none, none, some []⟩
      = Except.ok
          ⟨none, some ["readme", "readme"], some "LICENSE",
            some "https://github.com/maresb/hatch-vcs-footgun-example",
            some ["hatch-fancy-pypi-readme"]⟩ ∧
    (["readme", "readme"] : List String).count "readme" = 2 :=
  ⟨rfl, rfl⟩

/-- Helper: appending an element to a list unless already present leaves
an occurrence count equal to the maximum of one and the original count. -/
theorem ensureElem_count (a : String) (l : List String) :
    (if l.contains a then l else l ++ [a]).count a = max 1 (l.count a) := by
  by_cases h : a ∈ l
  · simp [h]
  · simp [h, List.count_eq_zero.mpr h]

/-- Claim C10, amended: for every input whose project table contains the
readme key, the script succeeds with a document in which the readme key is
absent from the project table, readme occurs in project.dynamic with
multiplicity the maximum of one and its multiplicity in the input (so it
is appended exactly when not already present, and never duplicated by the
script), and likewise hatch-fancy-pypi-readme in build-system.requires;
on any input lacking the readme key the script fails with a key-lookup
error. -/
theorem prepare_pypi_readme_spec (p : Pyproject) (r : String)
    (h : p.projectReadme = some r) :
    (∃ q, prepare_pypi_readme p = Except.ok q ∧
      q.projectReadme = none ∧
      (∃ d, q.projectDynamic = some d ∧
        d.count "readme" = max 1 ((p.projectDynamic.getD []).count "readme")) ∧
      (∃ rq, q.buildSystemRequires = some rq ∧
        rq.count "hatch-fancy-pypi-readme"
          = max 1 ((p.buildSystemRequires.getD []).count
              "hatch-fancy-pypi-readme"))) ∧
    (∀ p2 : Pyproject, p2.projectReadme = none →
      prepare_pypi_readme p2 = Except.error "KeyError: readme") := by
  constructor
  · have hq : prepare_pypi_readme p = Except.ok
        { projectReadme := none
          projectDynamic := some
            (if (p.projectDynamic.getD []).contains "readme" then
              p.projectDynamic.getD []
            else p.projectDynamic.getD [] ++ ["readme"])
          projectLicenseFile := some "LICENSE"
          projectUrlsHomepage :=
            some "https://github.com/maresb/hatch-vcs-footgun-example"
          buildSystemRequires := some
            (if (p.buildSystemRequires.getD []).contains
                "hatch-fancy-pypi-readme" then
              p.buildSystemRequires.getD []
            else p.buildSystemRequires.getD [] ++ ["hatch-fancy-pypi-readme"]) } := by
      simp only [prepare_pypi_readme, h]
    exact ⟨_, hq, rfl, ⟨_, rfl, ensureElem_count _ _⟩,
      ⟨_, rfl, ensureElem_count _ _⟩⟩
  · intro p2 h2
    simp [prepare_pypi_readme, h2]

/-- Witness for the amended C10 on a concrete document carrying a readme
key, a dynamic list without readme, and the usual build requirements. -/
theorem prepare_pypi_readme_spec_witness :
    ∃ q, prepare_pypi_readme
        (⟨some "README.md", some ["version"], none, none,
          some ["hatchling", "hatch-vcs"]⟩ : Pyproject) = Except.ok q ∧
      q.projectReadme = none ∧
      (∃ d, q.projectDynamic = some d ∧
        d.count "readme" = max 1
          (((⟨some "README.md", some ["version"], none, none,
              some ["hatchling", "hatch-vcs"]⟩ :
                Pyproject).projectDynamic.getD []).count "readme")) ∧
      (∃ rq, q.buildSystemRequires = some rq ∧
        rq.count "hatch-fancy-pypi-readme" = max 1
          (((⟨some "README.md", some ["version"], none, none,
              some ["hatchling", "hatch-vcs"]⟩ :
                Pyproject).buildSystemRequires.getD []).count
            "hatch-fancy-pypi-readme")) :=
  (prepare_pypi_readme_spec
    ⟨some "README.md", some ["version"], none, none,
      some ["hatchling", "hatch-vcs"]⟩ "README.md" rfl).1
